import Mathlib

/-!
# Verification of the ST → PLCOpenXML converter (`src/st_to_plcopenxml.py`)

Shallow embedding of the converter's extraction and serialization core.
Text is modelled as `List Char`.  Each regular-expression call of the
source is embedded as a bespoke total scanner whose semantics were derived
from CPython's leftmost-match backtracking behaviour for that concrete
pattern (greedy runs of `\s`/`\w` followed by a literal cannot shrink
usefully because the literal's first character is neither whitespace nor a
word character; lazy groups stop at the first position where the
continuation matches).  Object identifiers (`uuid.uuid4()` in the source)
are modelled by a fresh-identifier counter threaded through construction;
the counter plays the role of the 128-bit random draw, and its injectivity
corresponds to the collision-freedom the source assumes.
-/

namespace STConv

/-- Program text, Python `str`, modelled as a list of characters. -/
abbrev Str := List Char

/-! ## Character classes and Python string primitives -/

/-- Python regex `\s` / `str.strip` whitespace (ASCII range, which covers
all inputs of interest). -/
def isWS (c : Char) : Bool :=
  c = ' ' || c = '\t' || c = '\n' || c = '\r' || c = '\x0b' || c = '\x0c'

/-- Python regex `\w`: alphanumeric or underscore. -/
def isWordChar (c : Char) : Bool :=
  c.isAlphanum || c = '_'

/-- Python `str.strip()`. -/
def pyStrip (s : Str) : Str :=
  ((s.dropWhile isWS).reverse.dropWhile isWS).reverse

/-- Python `str.rstrip(';')`. -/
def pyRStripSemi (s : Str) : Str :=
  (s.reverse.dropWhile (fun c => c = ';')).reverse

/-- Python `str.split('\n')` (keeps empty pieces, including a trailing one). -/
def splitLines (s : Str) : List Str :=
  s.foldr
    (fun c acc =>
      match acc with
      | l :: ls => if c = '\n' then [] :: l :: ls else (c :: l) :: ls
      | [] => [[c]])
    [[]]

/-- Python `str.upper()` (ASCII). -/
def toUpperStr (s : Str) : Str := s.map Char.toUpper

/-- Python `str.lower()` (ASCII), used for `re.IGNORECASE` literals. -/
def toLowerStr (s : Str) : Str := s.map Char.toLower

/-! ## Substring machinery -/

/-- The `s[a:b]` as a character list. -/
def slice (s : Str) (a b : Nat) : Str := (s.drop a).take (b - a)

/-- Does the literal `pat` occur in `s` at position `i`? -/
def occAt (pat s : Str) (i : Nat) : Bool := pat.isPrefixOf (s.drop i)

/-- Case-insensitive variant of `occAt` (for `re.IGNORECASE`). -/
def occAtCI (pat s : Str) (i : Nat) : Bool :=
  (toLowerStr pat).isPrefixOf (toLowerStr (s.drop i))

/-- All candidate match-start positions of `s` (0 .. `s.length`). -/
def positions (s : Str) : List Nat := List.range (s.length + 1)

/-- The candidate positions `k, k+1, …, s.length`. -/
def positionsFrom (s : Str) (k : Nat) : List Nat :=
  List.range' k (s.length + 1 - k)

/-- First occurrence of literal `pat` in `s` at a position `≥ k`
(the lazy step `(.*?)pat` of the embedded patterns). -/
def firstOccFrom (pat s : Str) (k : Nat) : Option Nat :=
  (positionsFrom s k).find? (occAt pat s)

/-- All occurrence positions of literal `pat` in `s`. -/
def occList (pat s : Str) : List Nat := (positions s).filter (occAt pat s)

/-- Tail-recursive scan counting the suffixes of `s` that start with
`pat` (i.e. the occurrence positions of `pat`, including position
`s.length` for an empty pattern). -/
def countOccAux (pat : Str) : Str → Nat → Nat
  | [], acc => if pat.isPrefixOf [] then acc + 1 else acc
  | c :: t, acc =>
    if pat.isPrefixOf (c :: t) then countOccAux pat t (acc + 1)
    else countOccAux pat t acc

/-- Number of occurrences of literal `pat` in `s`. -/
def countOcc (pat s : Str) : Nat := countOccAux pat s 0

/-- Python `pat in s` (substring containment). -/
def containsSub (pat s : Str) : Bool := (firstOccFrom pat s 0).isSome

/-- Length of the maximal whitespace run of `s` starting at `i`
(a greedy `\s*` / `\s+`). -/
def wsRunFrom (s : Str) (i : Nat) : Nat := ((s.drop i).takeWhile isWS).length

/-- Length of the maximal word-character run of `s` starting at `i`
(a greedy `\w+`). -/
def wordRunFrom (s : Str) (i : Nat) : Nat := ((s.drop i).takeWhile isWordChar).length

/-- Length of the maximal whitespace run of `s` that ends just before
position `r` (used for the trailing `\s*` of `(.*?)\s*LIT`, which trims
the capture). -/
def wsRunEndingAt (s : Str) (r : Nat) : Nat :=
  ((s.take r).reverse.takeWhile isWS).length

/-! ## Embedded regular-expression scanners

Each scanner embeds one concrete `re` call of the source.  A `…At`
function is a single match attempt at a position; the corresponding
`search…` function returns the leftmost successful attempt, exactly as
`re.search` scans start positions left to right. -/

/-- The `L1\s+L2` at position `i` (e.g. `METHOD\s+PUBLIC`): literal, at least
one whitespace character, literal.  The greedy `\s+` cannot usefully
shrink because `L2` starts with a non-whitespace character, so `L2` must
follow the maximal whitespace run. -/
def litWsLitAt (l1 l2 s : Str) (i : Nat) : Bool :=
  occAt l1 s i &&
    (let j := i + l1.length
     let w := wsRunFrom s j
     decide (1 ≤ w) && occAt l2 s (j + w))

/-- A `METHOD\s+PUBLIC` match at position `i`. -/
def mpAt (s : Str) (i : Nat) : Bool := litWsLitAt "METHOD".data "PUBLIC".data s i

/-- A `PROPERTY\s+PUBLIC` match at position `i`. -/
def ppAt (s : Str) (i : Nat) : Bool := litWsLitAt "PROPERTY".data "PUBLIC".data s i

/-- All positions of `METHOD\s+PUBLIC` matches in `s`. -/
def mpOccs (s : Str) : List Nat := (positions s).filter (mpAt s)

/-- One attempt of `re.search(r'FUNCTION_BLOCK\s+(\w+)', text)`
(source line 113) at position `i`; returns capture group 1 (the greedy
maximal word run). -/
def fbNameAt (s : Str) (i : Nat) : Option Str :=
  if occAt "FUNCTION_BLOCK".data s i then
    let j := i + 14
    let w := wsRunFrom s j
    if w = 0 then none
    else
      let r := wordRunFrom s (j + w)
      if r = 0 then none else some (slice s (j + w) (j + w + r))
  else none

/-- The `re.search(r'FUNCTION_BLOCK\s+(\w+)', text)` (source line 113). -/
def searchFBName (s : Str) : Option Str := (positions s).findSome? (fbNameAt s)

/-- The `\s*\n(.*?)\nEND_VAR` continuation from position `k`: the greedy
`\s*\n` consumes whitespace up to and including some newline of the
maximal whitespace run (later newlines tried first); the lazy group then
ends at the first following occurrence of `"\nEND_VAR"`, and on failure
the engine backtracks to an earlier newline of the run. -/
def capNlEndVar (s : Str) (k : Nat) : Option Str :=
  let w := wsRunFrom s k
  let nls := (List.range w).filter (fun d => occAt ['\n'] s (k + d))
  nls.reverse.findSome? (fun d =>
    (firstOccFrom "\nEND_VAR".data s (k + d + 1)).map (fun r => slice s (k + d + 1) r))

/-- One attempt of
`re.search(r'VAR\s+CONSTANT\s*\n(.*?)\nEND_VAR', text, re.MULTILINE | re.DOTALL)`
(source line 118) at position `i`. -/
def constBlockAt (s : Str) (i : Nat) : Option Str :=
  if occAt "VAR".data s i then
    let j := i + 3
    let w := wsRunFrom s j
    if w = 0 then none
    else if occAt "CONSTANT".data s (j + w) then capNlEndVar s (j + w + 8)
    else none
  else none

/-- The `VAR CONSTANT` block search of `parse_st` (source line 118). -/
def searchConstBlock (s : Str) : Option Str := (positions s).findSome? (constBlockAt s)

/-- One attempt of `re.search(r'VAR\s*\n(.*?)\nEND_VAR', fb_section, …)`
(source line 127) at position `i`.  Note the bare `VAR` literal also
matches inside `END_VAR` and `VAR_INPUT`. -/
def varBlockAt (s : Str) (i : Nat) : Option Str :=
  if occAt "VAR".data s i then capNlEndVar s (i + 3) else none

/-- The member-variable block search inside the function-block section
(source line 127). -/
def searchVarNl (s : Str) : Option Str := (positions s).findSome? (varBlockAt s)

/-- One attempt of
`re.search(r'FUNCTION_BLOCK\s+\w+(.*?)METHOD\s+PUBLIC', text, re.DOTALL)`
(source line 124) at position `i`; returns capture group 1.  The greedy
`\w+` takes the maximal run first; if no `METHOD\s+PUBLIC` match starts at
or after its end, backtracking shrinks the run, which can only succeed at
a `METHOD\s+PUBLIC` match starting strictly inside the run (the capture is
then empty; the latest such position is reached first because longer runs
are tried first). -/
def fbSectionAt (s : Str) (i : Nat) : Option Str :=
  if occAt "FUNCTION_BLOCK".data s i then
    let j := i + 14
    let w := wsRunFrom s j
    if w = 0 then none
    else
      let st := j + w
      let r := wordRunFrom s st
      if r = 0 then none
      else
        let e := st + r
        match (mpOccs s).find? (fun o => decide (e ≤ o)) with
        | some o => some (slice s e o)
        | none =>
          if ((mpOccs s).filter (fun o => decide (st + 1 ≤ o) && decide (o < e))).isEmpty
          then none else some []
  else none

/-- The function-block section search of `parse_st` (source line 124):
the region between the function-block declaration and the first
`METHOD PUBLIC` marker. -/
def searchFBSection (s : Str) : Option Str := (positions s).findSome? (fbSectionAt s)

/-- One attempt of `re.search(r'PRE\s*(.*?)\s*TERM', block, re.DOTALL)` at
position `i` (used for `VAR_INPUT/VAR_OUTPUT/VAR … END_VAR` on lines
195–207 and `BEGIN … END_METHOD` on line 211): after the greedy `\s*`, the
lazy group ends at the first position from which `\s*TERM` matches, i.e.
just before the whitespace run preceding the first occurrence of `TERM`. -/
def sandwichAt (pre term s : Str) (i : Nat) : Option Str :=
  if occAt pre s i then
    let st := i + pre.length + wsRunFrom s (i + pre.length)
    (firstOccFrom term s st).map (fun r => slice s st (max st (r - wsRunEndingAt s r)))
  else none

/-- The `re.search(r'PRE\s*(.*?)\s*TERM', block, re.DOTALL)`. -/
def searchSandwich (pre term s : Str) : Option Str :=
  (positions s).findSome? (sandwichAt pre term s)

/-- The `re.search(r'(.*?)\s*END_METHOD', cleaned, re.DOTALL)` (source
line 218): a leftmost match starts at position 0 whenever the terminator
occurs at all. -/
def searchLazyEnd (term s : Str) : Option Str :=
  (firstOccFrom term s 0).map (fun r => slice s 0 (r - wsRunEndingAt s r))

/-- The first position `≥ st` where Python `$` (no `re.MULTILINE`)
matches: the end of the text, or just before a trailing newline. -/
def dollarFrom (s : Str) (st : Nat) : Nat :=
  if s.getLast? = some '\n' && st + 1 ≤ s.length then s.length - 1 else s.length

/-- Capture end for a lazy group followed by `END_PROPERTY|$` starting at
`st` (source lines 232, 242, 248): the first `END_PROPERTY` occurrence or
the first `$` position, whichever comes first. -/
def endPropOrDollar (s : Str) (st : Nat) : Nat :=
  match firstOccFrom "END_PROPERTY".data s st with
  | some r => min r (dollarFrom s st)
  | none => dollarFrom s st

/-- One attempt of
`re.search(r'PROPERTY\s+GET\s*(.*?)(?=END_PROPERTY|$)', block, re.DOTALL)`
(source line 232) at position `i`. -/
def getSectionAt (s : Str) (i : Nat) : Option Str :=
  if occAt "PROPERTY".data s i then
    let j := i + 8
    let w := wsRunFrom s j
    if w = 0 then none
    else if occAt "GET".data s (j + w) then
      let st := j + w + 3 + wsRunFrom s (j + w + 3)
      some (slice s st (endPropOrDollar s st))
    else none
  else none

/-- The `PROPERTY GET` sub-block search (source line 232). -/
def searchGetSection (s : Str) : Option Str := (positions s).findSome? (getSectionAt s)

/-- One attempt of
`re.search(r'BEGIN\s*(.*?)(?:END_PROPERTY|$)', get_block, re.DOTALL)`
(source line 242) at position `i`. -/
def propBeginAt (s : Str) (i : Nat) : Option Str :=
  if occAt "BEGIN".data s i then
    let st := i + 5 + wsRunFrom s (i + 5)
    some (slice s st (endPropOrDollar s st))
  else none

/-- The property-body `BEGIN` search (source line 242). -/
def searchPropBegin (s : Str) : Option Str := (positions s).findSome? (propBeginAt s)

/-- The `re.search(r'(.*?)(?:END_PROPERTY|$)', cleaned, re.DOTALL)` (source
line 248); always matches, at position 0. -/
def prefixToEndProp (s : Str) : Str := slice s 0 (endPropOrDollar s 0)

/-- One match attempt of `(VAR_INPUT|VAR_OUTPUT|VAR)\s*.*?END_VAR\s*`
(the `re.sub` patterns of source lines 217 and 247) at position `i`;
returns the match end.  Alternatives are tried in order; the lazy `.*?`
ends at the first `END_VAR` occurrence, whose trailing `\s*` is consumed
greedily. -/
def varSecSubAt (alts : List Str) (s : Str) (i : Nat) : Option Nat :=
  alts.findSome? (fun a =>
    if occAt a s i then
      (firstOccFrom "END_VAR".data s (i + a.length)).map (fun r =>
        r + 7 + wsRunFrom s (r + 7))
    else none)

/-- The `re.sub(pattern, '', s, flags=re.DOTALL)`: scan left to right,
delete each non-overlapping leftmost match, keep other characters.
The scan position strictly increases each step (every match of the
embedded pattern is nonempty; the `max` keeps this evident), so the fuel
`s.length + 1` supplied by `pySubMethodVars`/`pySubPropVars` is never
exhausted before the scan reaches the end of the text. -/
def pySubAux (alts : List Str) (s : Str) : Nat → Nat → Str
  | _, 0 => []
  | i, fuel + 1 =>
    match s[i]? with
    | none => []
    | some c =>
      match varSecSubAt alts s i with
      | some e => pySubAux alts s (max e (i + 1)) fuel
      | none => c :: pySubAux alts s (i + 1) fuel

/-- The method-body `re.sub` of source line 217. -/
def pySubMethodVars (s : Str) : Str :=
  pySubAux ["VAR_INPUT".data, "VAR_OUTPUT".data, "VAR".data] s 0 (s.length + 1)

/-- The property-body `re.sub` of source line 247 (bare `VAR` only). -/
def pySubPropVars (s : Str) : Str := pySubAux ["VAR".data] s 0 (s.length + 1)

/-- Quote character class `['\"]` of the attribute pragma pattern. -/
def isQuote (c : Char) : Bool := c = '\'' || c = '"'

/-- One attempt of
`re.search(r"\x7battribute\s+['\"](\w+)['\"]\s*:=\s*['\"](\w+)['\"]\x7d", block)`
(source line 227, braces written here as escapes) at position `i`. -/
def attrAt (s : Str) (i : Nat) : Option (Str × Str) :=
  if occAt ('\x7b' :: "attribute".data) s i then
    let j := i + 10
    let w := wsRunFrom s j
    if w = 0 then none
    else
      match s[j + w]? with
      | some c1 =>
        if isQuote c1 then
          let ns := j + w + 1
          let nr := wordRunFrom s ns
          if nr = 0 then none
          else
            match s[ns + nr]? with
            | some c2 =>
              if isQuote c2 then
                let k := ns + nr + 1 + wsRunFrom s (ns + nr + 1)
                if occAt ":=".data s k then
                  let k2 := k + 2 + wsRunFrom s (k + 2)
                  match s[k2]? with
                  | some c3 =>
                    if isQuote c3 then
                      let vs := k2 + 1
                      let vr := wordRunFrom s vs
                      if vr = 0 then none
                      else
                        match s[vs + vr]? with
                        | some c4 =>
                          if isQuote c4 && occAt ['\x7d'] s (vs + vr + 1) then
                            some (slice s ns (ns + nr), slice s vs (vs + vr))
                          else none
                        | none => none
                    else none
                  | none => none
                else none
              else none
            | none => none
        else none
      | none => none
  else none

/-- The attribute-pragma search of `_parse_property` (source line 227). -/
def searchAttr (s : Str) : Option (Str × Str) := (positions s).findSome? (attrAt s)

/-- The zero-width lookahead
`(?=METHOD\s+PUBLIC|PROPERTY\s+PUBLIC|END_FUNCTION_BLOCK)` at `o`. -/
def methodLookAt (s : Str) (o : Nat) : Bool :=
  mpAt s o || ppAt s o || occAt "END_FUNCTION_BLOCK".data s o

/-- All positions where the method-terminating lookahead matches. -/
def lookOccs (s : Str) : List Nat := (positions s).filter (methodLookAt s)

/-- One attempt of the method matcher
`METHOD\s+PUBLIC\s+(\w+)(.*?)(?=METHOD\s+PUBLIC|PROPERTY\s+PUBLIC|END_FUNCTION_BLOCK)`
(source lines 132–135) at position `i`; returns (name, span, match end).
As in `fbSectionAt`, if the lazy group cannot reach a lookahead position
after the maximal `\w+` run, backtracking shrinks the name run (capture
then empty, name truncated at the latest lookahead position inside it). -/
def methodMatchAt (s : Str) (i : Nat) : Option (Str × Str × Nat) :=
  if occAt "METHOD".data s i then
    let j := i + 6
    let w1 := wsRunFrom s j
    if w1 = 0 then none
    else if occAt "PUBLIC".data s (j + w1) then
      let k := j + w1 + 6
      let w2 := wsRunFrom s k
      if w2 = 0 then none
      else
        let st := k + w2
        let r := wordRunFrom s st
        if r = 0 then none
        else
          let e := st + r
          match (lookOccs s).find? (fun o => decide (e ≤ o)) with
          | some o => some (slice s st e, slice s e o, o)
          | none =>
            match ((lookOccs s).filter (fun o => decide (st + 1 ≤ o) && decide (o < e))).getLast? with
            | some o => some (slice s st o, [], o)
            | none => none
    else none
  else none

/-- The `re.finditer` for the method pattern (source lines 132–135):
repeatedly take the leftmost match at or after the current position and
continue from its end.  Each match ends strictly after its start, so the
fuel `s.length + 1` is never exhausted first (the `max` keeps this
evident). -/
def methodIterAux (s : Str) : Nat → Nat → List (Str × Str)
  | _, 0 => []
  | pos, fuel + 1 =>
    match (positionsFrom s pos).findSome? (methodMatchAt s) with
    | some (n, blk, e) => (n, blk) :: methodIterAux s (max e (pos + 1)) fuel
    | none => []

/-- All method matches of the source text, in source order. -/
def methodFind (s : Str) : List (Str × Str) := methodIterAux s 0 (s.length + 1)

/-- One attempt of the property matcher
`PROPERTY\s+PUBLIC\s+(\w+)\s*:\s*(\w+)(.*?)END_PROPERTY`
(source lines 143–145) at position `i`; returns
(name, type, span, match end).  The type's `\w+` run can be truncated by
backtracking when `END_PROPERTY` only occurs inside it. -/
def propMatchAt (s : Str) (i : Nat) : Option (Str × Str × Str × Nat) :=
  if occAt "PROPERTY".data s i then
    let j := i + 8
    let w1 := wsRunFrom s j
    if w1 = 0 then none
    else if occAt "PUBLIC".data s (j + w1) then
      let k := j + w1 + 6
      let w2 := wsRunFrom s k
      if w2 = 0 then none
      else
        let st := k + w2
        let r := wordRunFrom s st
        if r = 0 then none
        else
          let e := st + r
          let w3 := wsRunFrom s e
          if occAt [':'] s (e + w3) then
            let q := e + w3 + 1
            let st2 := q + wsRunFrom s q
            let r2 := wordRunFrom s st2
            if r2 = 0 then none
            else
              let e2 := st2 + r2
              match (occList "END_PROPERTY".data s).find? (fun o => decide (e2 ≤ o)) with
              | some o => some (slice s st e, slice s st2 e2, slice s e2 o, o + 12)
              | none =>
                match ((occList "END_PROPERTY".data s).filter
                    (fun o => decide (st2 + 1 ≤ o) && decide (o < e2))).getLast? with
                | some o => some (slice s st e, slice s st2 o, [], o + 12)
                | none => none
          else none
    else none
  else none

/-- The `re.finditer` for the property pattern (source lines 143–145). -/
def propIterAux (s : Str) : Nat → Nat → List (Str × Str × Str)
  | _, 0 => []
  | pos, fuel + 1 =>
    match (positionsFrom s pos).findSome? (propMatchAt s) with
    | some (n, ty, blk, e) => (n, ty, blk) :: propIterAux s (max e (pos + 1)) fuel
    | none => []

/-- All property matches of the source text, in source order. -/
def propFind (s : Str) : List (Str × Str × Str) := propIterAux s 0 (s.length + 1)

/-- The `re.match(r'ARRAY\s*\[(.*?)\]\s*OF\s*(\w+)', type_str, re.IGNORECASE)`
(source lines 277–280), anchored at 0: the lazy group stops at the first
`]` from which the continuation `\s*OF\s*(\w+)` matches. -/
def arrayTypeMatch (t : Str) : Option (Str × Str) :=
  if occAtCI "ARRAY".data t 0 then
    let k := 5 + wsRunFrom t 5
    if occAt ['['] t k then
      let st := k + 1
      ((positionsFrom t st).filter (occAt [']'] t)).findSome? (fun r =>
        let a := r + 1 + wsRunFrom t (r + 1)
        if occAtCI "OF".data t a then
          let b := a + 2 + wsRunFrom t (a + 2)
          let wr := wordRunFrom t b
          if wr = 0 then none else some (slice t st r, slice t b (b + wr))
        else none)
    else none
  else none

/-- The `re.match(r'(\w+)\s*:\s*(.+?)(?::=\s*(.+))?$', line)` (source
line 170) on a single stripped line: the lazy `(.+?)` grows until either
the optional `:=` group matches with a nonempty remainder (the capture
then drops the whitespace after `:=`, keeping at least one character), or
the end of the line is reached (initializer absent). -/
def declLineMatch (line : Str) : Option (Str × Str × Option Str) :=
  let r1 := wordRunFrom line 0
  if r1 = 0 then none
  else
    let w1 := wsRunFrom line r1
    if occAt [':'] line (r1 + w1) then
      let q := r1 + w1 + 1
      let rest := line.drop (q + wsRunFrom line q)
      (List.range' 1 rest.length).findSome? (fun L =>
        if occAt ":=".data rest L && decide (L + 3 ≤ rest.length) then
          let r2 := rest.drop (L + 2)
          let w := (r2.takeWhile isWS).length
          some (line.take r1, rest.take L, some (r2.drop (min w (r2.length - 1))))
        else if L = rest.length then some (line.take r1, rest, none)
        else none)
    else none

/-- The `re.match(r'(\w+)\s*:\s*(.+)', line)` (source line 261): the greedy
`(.+)` takes everything after the colon and its following whitespace
(keeping at least one character when the remainder is all whitespace). -/
def paramLineMatch (line : Str) : Option (Str × Str) :=
  let r1 := wordRunFrom line 0
  if r1 = 0 then none
  else
    let w1 := wsRunFrom line r1
    if occAt [':'] line (r1 + w1) then
      let tail := line.drop (r1 + w1 + 1)
      if tail.isEmpty then none
      else
        let w := (tail.takeWhile isWS).length
        some (line.take r1, tail.drop (min w (tail.length - 1)))
    else none

/-! ## Data model (source lines 49–97) -/

/-- The `Variable` (source lines 49–58).  `is_constant` is `False` for every
variable the extractor builds, because `parse_variable_decl` (line 106)
never passes the flag. -/
structure Variable where
  name : Str
  type_str : Str
  init_val : Option Str
  is_constant : Bool
deriving DecidableEq

/-- The `Method` (source lines 61–72); `object_id` is the allocator value
standing for the `uuid.uuid4()` draw of line 69. -/
structure Method where
  name : Str
  input_vars : List (Str × Str)
  output_vars : List (Str × Str)
  local_vars : List (Str × Str)
  body : Str
  object_id : Nat
deriving DecidableEq

/-- The `Property` (source lines 75–86); `attr` is the source's `attribute`
field (a Lean keyword). -/
structure Property where
  name : Str
  type_str : Str
  local_vars : List (Str × Str)
  body : Str
  attr : Option (Str × Str)
  object_id : Nat
deriving DecidableEq

/-- The `STConverter` state (source lines 92–97).  The `constants` and
`variables` dicts are insertion-ordered association lists; the source's
`variables` field is called `vars` here because `variables` is a
(deprecated) Lean command token. -/
structure STConverter where
  fb_name : Str
  constants : List (Str × Variable)
  vars : List (Str × Variable)
  methods : List Method
  properties : List Property
deriving DecidableEq

/-- The `STConverter.__init__` (source lines 92–97). -/
def STConverter.init : STConverter := ⟨"FB".data, [], [], [], []⟩

/-- The `uuid_str()` (source line 34) modelled as the next value of a
fresh-identifier counter; the counter's distinct values stand for the
collision-free 128-bit random draws the source assumes. -/
def uuidNext (c : Nat) : Nat × Nat := (c, c + 1)

/-- Python `dict` assignment `d[k] = v` on an insertion-ordered
association list: overwrite in place when the key exists, else append. -/
def dictSet (d : List (Str × Variable)) (k : Str) (v : Variable) : List (Str × Variable) :=
  if d.any (fun p => decide (p.1 = k)) then
    d.map (fun p => if p.1 = k then (k, v) else p)
  else d ++ [(k, v)]

/-! ## Extractor (source lines 99–265) -/

/-- The `parse_type` (source lines 99–104). -/
def parse_type (t : Str) : Str := pyStrip t

/-- The `parse_variable_decl` (source lines 106–108): `is_constant` is left
at its default `False`. -/
def parse_variable_decl (name type_str : Str) (init_val : Option Str) : Variable :=
  ⟨name, parse_type type_str, init_val, false⟩

/-- The multi-line `ARRAY` continuation loop of `_parse_var_block`
(source lines 178–186): append following stripped lines to the type until
a line containing `OF` (after upper-casing) is met; returns the extended
type and the index of the breaking line (`none` when the loop exhausts the
lines without a break, in which case the outer index is not advanced and
the following lines are processed again — faithful to the source).  The
index strictly increases, so the fuel `lines.length + 1` never runs out
first. -/
def arrayExtendAux (lines : List Str) : Str → Nat → Nat → Str × Option Nat
  | ty, _, 0 => (ty, none)
  | ty, j, fuel + 1 =>
    match lines[j]? with
    | none => (ty, none)
    | some ln =>
      let ty' := ty ++ ' ' :: pyStrip ln
      if containsSub "OF".data (toUpperStr ln) then (ty', some j)
      else arrayExtendAux lines ty' (j + 1) fuel

/-- The declaration-line loop of `_parse_var_block` (source lines
160–190).  The line index strictly increases each iteration (the `ARRAY`
break index `j` is always `≥ i + 1`, so the `max` below is the identity;
it keeps the increase evident), hence the fuel `lines.length + 1` is never
exhausted before the loop ends. -/
def parseVarLoop (lines : List Str) : Nat → Nat → List (Str × Variable) → List (Str × Variable)
  | _, 0, target => target
  | i, fuel + 1, target =>
    match lines[i]? with
    | none => target
    | some rawLine =>
      let line := pyStrip rawLine
      if line.isEmpty || occAt "(*".data line 0 then
        parseVarLoop lines (i + 1) fuel target
      else
        match declLineMatch line with
        | none => parseVarLoop lines (i + 1) fuel target
        | some (n, tyRaw, initRaw) =>
          let type_str := pyStrip tyRaw
          let init_val := initRaw.map pyStrip
          let (type2, i2) :=
            if containsSub "ARRAY".data (toUpperStr type_str) then
              match arrayExtendAux lines type_str (i + 1) (lines.length + 1) with
              | (t, some j) => (t, max i j)
              | (t, none) => (t, i)
            else (type_str, i)
          parseVarLoop lines (i2 + 1) fuel
            (dictSet target n (parse_variable_decl n type2 init_val))

/-- The `_parse_var_block` (source lines 154–190), parameterized by the
target dict (`self.constants` or `self.variables`). -/
def parse_var_block (block_text : Str) (target : List (Str × Variable)) :
    List (Str × Variable) :=
  let lines := splitLines block_text
  parseVarLoop lines 0 (lines.length + 1) target

/-- The `_parse_param_section` (source lines 254–265): one `(name, type)`
pair per matching line, in order. -/
def parse_param_section (sec : Str) : List (Str × Str) :=
  (splitLines sec).filterMap (fun l =>
    let l2 := pyRStripSemi (pyStrip l)
    if l2.isEmpty || occAt "(*".data l2 0 then none
    else (paramLineMatch l2).map (fun p => (p.1, pyStrip p.2)))

/-- The `_parse_method` (source lines 192–222): input, output and local
sections, then the two-tier body extraction (`BEGIN…END_METHOD` first,
else everything before `END_METHOD` after deleting the declaration
sections — kept only when nonempty after stripping, which `pyStrip`
makes automatic). -/
def parse_method (block : Str) :
    List (Str × Str) × List (Str × Str) × List (Str × Str) × Str :=
  let inputs := match searchSandwich "VAR_INPUT".data "END_VAR".data block with
    | some g => parse_param_section g
    | none => []
  let outputs := match searchSandwich "VAR_OUTPUT".data "END_VAR".data block with
    | some g => parse_param_section g
    | none => []
  let locals := match searchSandwich "VAR".data "END_VAR".data block with
    | some g => parse_param_section g
    | none => []
  let body := match searchSandwich "BEGIN".data "END_METHOD".data block with
    | some b => pyStrip b
    | none =>
      match searchLazyEnd "END_METHOD".data (pySubMethodVars block) with
      | some b => pyStrip b
      | none => []
  (inputs, outputs, locals, body)

/-- The `_parse_property` (source lines 224–252): attribute pragma, then the
`PROPERTY GET` sub-block with local variables and the two-tier body
extraction (the fallback's `(.*?)(?:END_PROPERTY|$)` always matches). -/
def parse_property (block : Str) : Option (Str × Str) × List (Str × Str) × Str :=
  let attr := searchAttr block
  match searchGetSection block with
  | none => (attr, [], [])
  | some g =>
    let locals := match searchSandwich "VAR".data "END_VAR".data g with
      | some l => parse_param_section l
      | none => []
    let body := match searchPropBegin g with
      | some b => pyStrip b
      | none => pyStrip (prefixToEndProp (pySubPropVars g))
    (attr, locals, body)

/-- The method loop of `parse_st` (source lines 132–140): per match,
construct a `Method` (allocating its object identifier, line 69) and
parse its block. -/
def buildMethods : List (Str × Str) → Nat → List Method × Nat
  | [], c => ([], c)
  | (n, blk) :: rest, c =>
    let pm := parse_method blk
    let tlRes := buildMethods rest (uuidNext c).2
    (⟨n, pm.1, pm.2.1, pm.2.2.1, pm.2.2.2, (uuidNext c).1⟩ :: tlRes.1, tlRes.2)

/-- The property loop of `parse_st` (source lines 143–152). -/
def buildProps : List (Str × Str × Str) → Nat → List Property × Nat
  | [], c => ([], c)
  | (n, ty, blk) :: rest, c =>
    let pp := parse_property blk
    let tlRes := buildProps rest (uuidNext c).2
    (⟨n, ty, pp.2.1, pp.2.2, pp.1, (uuidNext c).1⟩ :: tlRes.1, tlRes.2)

/-- The function-block-name step of `parse_st` (source lines 113–115):
on a match, overwrite `fb_name`; otherwise keep the current value (the
`'FB'` default from `__init__` when the converter is fresh). -/
def applyName (st : STConverter) (text : Str) : STConverter :=
  match searchFBName text with
  | some n => { st with fb_name := n }
  | none => st

/-- The `VAR CONSTANT` step of `parse_st` (source lines 118–120). -/
def applyConsts (st : STConverter) (text : Str) : STConverter :=
  match searchConstBlock text with
  | some b => { st with constants := parse_var_block b st.constants }
  | none => st

/-- The member-variable step of `parse_st` (source lines 124–129): the
inner `VAR` search runs only on the section between the function-block
declaration and the first `METHOD PUBLIC` marker. -/
def applyVars (st : STConverter) (text : Str) : STConverter :=
  match searchFBSection text with
  | some sec =>
    match searchVarNl sec with
    | some b => { st with vars := parse_var_block b st.vars }
    | none => st
  | none => st

/-- The `STConverter.parse_st` (source lines 110–152).  Python mutates the
converter in place; here the updated converter is returned together with
the advanced identifier counter.  Note the method and property lists are
appended to, and the dicts merged into, whatever state the converter
already holds. -/
def parse_st (st : STConverter) (text : Str) (c : Nat) : STConverter × Nat :=
  let st1 := applyVars (applyConsts (applyName st text) text) text
  let mres := buildMethods (methodFind text) c
  let st2 := { st1 with methods := st1.methods ++ mres.1 }
  let pres := buildProps (propFind text) mres.2
  ({ st2 with properties := st2.properties ++ pres.1 }, pres.2)

/-! ## Serializer (source lines 39–46 and 267–493) -/

/-- One global single-character replacement: Python `str.replace(c, r)`
for a one-character needle. -/
def replAll (c : Char) (r : Str) : Str → Str
  | [] => []
  | x :: t => (if x = c then r else [x]) ++ replAll c r t

/-- The `escape_xhtml` (source lines 39–46): replace `&` first, then `<`,
then `>`. -/
def escape_xhtml (s : Str) : Str :=
  if s.isEmpty then s
  else replAll '>' "&gt;".data (replAll '<' "&lt;".data (replAll '&' "&amp;".data s))

/-- The `type_to_xml_element` (source lines 267–288). -/
def type_to_xml_element (t : Str) : Str :=
  let t := pyStrip t
  if containsSub "ARRAY".data (toUpperStr t) then
    match arrayTypeMatch t with
    | some (dim, base) =>
      "<array><dimension ".data ++ pyStrip dim ++ " /><baseType><".data ++ pyStrip base
        ++ " /></baseType></array>".data
    | none =>
      "<array><dimension lower=\"1\" upper=\"100\" /><baseType><INT /></baseType></array>".data
  else "<".data ++ t ++ " />".data

/-- Python `x or d` for an optional string (`None` and `''` give `d`). -/
def pyOrDefault (o : Option Str) (d : Str) : Str :=
  match o with
  | some l => if l.isEmpty then d else l
  | none => d

/-- Python truthiness of an optional string (`None` and `''` falsy). -/
def initTruthy : Option Str → Bool
  | none => false
  | some l => !l.isEmpty

/-- The `<initialValue>` fragment (source lines 301 and 312). -/
def initValueXml (v : Variable) : Str :=
  if initTruthy v.init_val then
    "<initialValue><simpleValue value=\"".data ++ pyOrDefault v.init_val "0".data
      ++ "\" /></initialValue>".data
  else []

/-- One member-variable entry (source lines 302–308 / 313–319). -/
def memberVarXml (v : Variable) : Str :=
  "            <variable name=\"".data ++ v.name
    ++ "\">\n              <type>\n                ".data
    ++ type_to_xml_element v.type_str
    ++ "\n              </type>\n              ".data ++ initValueXml v
    ++ "\n            </variable>\n".data

/-- One `<variable>` entry of a method/property parameter group (source
lines 404–409 and 438–439). -/
def paramVarXml (p : Str × Str) : Str :=
  "<variable name=\"".data ++ p.1 ++ "\"><type>".data ++ type_to_xml_element p.2
    ++ "</type></variable>".data

/-- One method data-block (source lines 403–431). -/
def methodXml (m : Method) : Str :=
  let input_vars := (m.input_vars.map paramVarXml).flatten
  let output_vars := (m.output_vars.map paramVarXml).flatten
  let local_vars := (m.local_vars.map paramVarXml).flatten
  let input_sec := if m.input_vars.isEmpty then []
    else "<inputVars>".data ++ input_vars ++ "</inputVars>".data
  let output_sec := if m.output_vars.isEmpty then []
    else "<outputVars>".data ++ output_vars ++ "</outputVars>".data
  let local_sec := if m.local_vars.isEmpty then []
    else "<localVars>".data ++ local_vars ++ "</localVars>".data
  "          <data name=\"http://www.3s-software.com/plcopenxml/method\" handleUnknown=\"implementation\">\n            <Method name=\"".data
    ++ m.name ++ "\" ObjectId=\"".data ++ (Nat.repr m.object_id).data
    ++ "\">\n              <interface>\n                ".data ++ input_sec
    ++ "\n                ".data ++ output_sec
    ++ "\n                ".data ++ local_sec
    ++ "\n              </interface>\n              <body>\n                <ST>\n                  <xhtml xmlns=\"http://www.w3.org/1999/xhtml\">".data
    ++ escape_xhtml m.body
    ++ "</xhtml>\n                </ST>\n              </body>\n              <addData />\n            </Method>\n          </data>\n".data

/-- The `_generate_methods_xml` (source lines 400–432). -/
def methodsXml (ms : List Method) : Str := (ms.map methodXml).flatten

/-- The optional attribute block of a property (source lines 443–452). -/
def attrXml (p : Property) : Str :=
  match p.attr with
  | some (k, v) =>
    "                  <addData>\n                    <data name=\"http://www.3s-software.com/plcopenxml/attributes\" handleUnknown=\"implementation\">\n                      <Attributes>\n                        <Attribute Name=\"".data
      ++ k ++ "\" Value=\"".data ++ v
      ++ "\" />\n                      </Attributes>\n                    </data>\n                  </addData>\n".data
  | none => []

/-- One property data-block (source lines 437–475). -/
def propXml (p : Property) : Str :=
  let local_vars := (p.local_vars.map paramVarXml).flatten
  let local_sec := if p.local_vars.isEmpty then []
    else "<localVars>".data ++ local_vars ++ "</localVars>".data
  "          <data name=\"http://www.3s-software.com/plcopenxml/property\" handleUnknown=\"implementation\">\n            <Property name=\"".data
    ++ p.name ++ "\" ObjectId=\"".data ++ (Nat.repr p.object_id).data
    ++ "\">\n              <interface>\n                <returnType>\n                  ".data
    ++ type_to_xml_element p.type_str
    ++ "\n                </returnType>\n              </interface>\n              <GetAccessor>\n                <interface>\n                  ".data
    ++ local_sec ++ "\n".data ++ attrXml p
    ++ "                </interface>\n                <body>\n                  <ST>\n                    <xhtml xmlns=\"http://www.w3.org/1999/xhtml\">".data
    ++ escape_xhtml p.body
    ++ "</xhtml>\n                  </ST>\n                </body>\n                <addData />\n              </GetAccessor>\n              <addData />\n            </Property>\n          </data>\n".data

/-- The `_generate_properties_xml` (source lines 434–476). -/
def propsXml (ps : List Property) : Str := (ps.map propXml).flatten

/-- The project-structure cross-reference list (source lines 328–329):
one `(name, object id)` entry per method, in order, then one per
property. -/
def projStruct (st : STConverter) : List (Str × Nat) :=
  st.methods.map (fun m => (m.name, m.object_id))
    ++ st.properties.map (fun p => (p.name, p.object_id))

/-- One rendered summary line (source lines 328–329). -/
def projStructLine (e : Str × Nat) : Str :=
  "        <Object Name=\"".data ++ e.1 ++ "\" ObjectId=\"".data ++ (Nat.repr e.2).data
    ++ "\" />".data

/-- Python `'\n'.join(proj_struct)` (source line 330). -/
def projStructStr (st : STConverter) : Str :=
  match (projStruct st).map projStructLine with
  | [] => []
  | l :: ls => l ++ (ls.map (fun x => '\n' :: x)).flatten

/-- The `generate_xml` (source lines 290–398): the complete document text
(the file write of line 397 is outside the modelled core).  The fixed
timestamp of line 292 and the schema text are transcribed verbatim. -/
def generate_xml (st : STConverter) (c : Nat) : Str × Nat :=
  let (project_obj_id, c1) := uuidNext c
  let now := "2026-02-10T00:00:00.0000000".data
  let pid := (Nat.repr project_obj_id).data
  let member_vars_const := (st.constants.map (fun p => memberVarXml p.2)).flatten
  let member_vars_regular := (st.vars.map (fun p => memberVarXml p.2)).flatten
  let constLine := if member_vars_const.isEmpty then []
    else "          <localVars constant=\"true\">".data ++ member_vars_const
      ++ "          </localVars>".data
  let regLine := if member_vars_regular.isEmpty then []
    else "          <localVars>".data ++ member_vars_regular ++ "          </localVars>".data
  let doc :=
    "<?xml version=\"1.0\" encoding=\"utf-8\"?>\n<project xmlns=\"http://www.plcopen.org/xml/tc6_0200\">\n  <fileHeader companyName=\"\" productName=\"Machine Expert Logic Builder\" productVersion=\"V22.1.1.0\" creationDateTime=\"".data
    ++ now
    ++ "\" />\n  <contentHeader name=\"".data ++ st.fb_name
    ++ "\" version=\"0.0.0.0\" modificationDateTime=\"".data ++ now
    ++ "\" author=\"vboxuser\">\n    <coordinateInfo>\n      <fbd>\n        <scaling x=\"1\" y=\"1\" />\n      </fbd>\n      <ld>\n        <scaling x=\"1\" y=\"1\" />\n      </ld>\n      <sfc>\n        <scaling x=\"1\" y=\"1\" />\n      </sfc>\n    </coordinateInfo>\n    <addData>\n      <data name=\"http://www.3s-software.com/plcopenxml/projectinformation\" handleUnknown=\"implementation\">\n        <ProjectInformation>\n          <property name=\"Author\" type=\"string\">vboxuser</property>\n          <property name=\"Company\" type=\"string\" />\n          <property name=\"Description\" type=\"string\" />\n          <property name=\"Git:IsGitManaged\" type=\"boolean\">false</property>\n          <property name=\"Project\" type=\"string\">".data
    ++ st.fb_name
    ++ "</property>\n          <property name=\"Svn:IsSvnManaged\" type=\"boolean\">false</property>\n          <property name=\"Title\" type=\"string\">".data
    ++ st.fb_name
    ++ "</property>\n          <property name=\"Version\" type=\"version\">0.0.0.0</property>\n        </ProjectInformation>\n      </data>\n    </addData>\n  </contentHeader>\n  <types>\n    <dataTypes />\n    <pous>\n      <pou name=\"".data
    ++ st.fb_name
    ++ "\" pouType=\"functionBlock\">\n        <interface>\n".data
    ++ constLine ++ "\n".data
    ++ regLine ++ "\n".data
    ++ "        </interface>\n        <body>\n          <ST>\n            <xhtml xmlns=\"http://www.w3.org/1999/xhtml\" />\n          </ST>\n        </body>\n        <addData>\n".data
    ++ methodsXml st.methods ++ propsXml st.properties
    ++ "        <data name=\"http://www.3s-software.com/plcopenxml/objectid\" handleUnknown=\"discard\">\n            <ObjectId>".data
    ++ pid
    ++ "</ObjectId>\n          </data>\n        </addData>\n      </pou>\n    </pous>\n  </types>\n  <instances>\n    <configurations />\n  </instances>\n  <addData>\n    <data name=\"http://www.3s-software.com/plcopenxml/projectstructure\" handleUnknown=\"discard\">\n      <ProjectStructure>\n        <Object Name=\"".data
    ++ st.fb_name ++ "\" ObjectId=\"".data ++ pid
    ++ "\">\n".data
    ++ projStructStr st
    ++ "\n        </Object>\n      </ProjectStructure>\n    </data>\n  </addData>\n</project>\n".data
  (doc, c1)

/-- The `STConverter.convert` (source lines 478–493) with file I/O factored
out: the input text stands for the source file's contents and the
returned document for the text written to the output path.  Note that
`convert` resets nothing: it parses into the converter's existing state. -/
def convert (st : STConverter) (text : Str) (c : Nat) : STConverter × Str × Nat :=
  let (st1, c1) := parse_st st text c
  let (doc, c2) := generate_xml st1 c1
  (st1, doc, c2)

/-! ## Spec-side definitions (for refinement claims) -/

/-- Modelled from the spec: standard XML entity un-escaping ("parsed by a
standard XML parser"), decoding the five predefined entities in one pass. -/
def xmlUnescape : Str → Str
  | [] => []
  | c :: t =>
    if c = '&' then
      if t.take 4 = ['a', 'm', 'p', ';'] then '&' :: xmlUnescape (t.drop 4)
      else if t.take 3 = ['l', 't', ';'] then '<' :: xmlUnescape (t.drop 3)
      else if t.take 3 = ['g', 't', ';'] then '>' :: xmlUnescape (t.drop 3)
      else if t.take 5 = ['q', 'u', 'o', 't', ';'] then '"' :: xmlUnescape (t.drop 5)
      else if t.take 5 = ['a', 'p', 'o', 's', ';'] then '\'' :: xmlUnescape (t.drop 5)
      else c :: xmlUnescape t
    else c :: xmlUnescape t
termination_by s => s.length
decreasing_by all_goals (simp [List.length_drop]; try omega)

/-- Modelled from the spec: the claimed per-character escape map — `&`,
`<`, `>` replaced (with `&` first), and nothing else. -/
def specEscapeChar (c : Char) : Str :=
  if c = '&' then ['&', 'a', 'm', 'p', ';']
  else if c = '<' then ['&', 'l', 't', ';']
  else if c = '>' then ['&', 'g', 't', ';']
  else [c]

/-! ## Identifier erasures and general lemmas -/

/-- A `Method` with its generated object identifier erased (all the
deterministic fields). -/
def Method.erase (m : Method) :
    Str × List (Str × Str) × List (Str × Str) × List (Str × Str) × Str :=
  (m.name, m.input_vars, m.output_vars, m.local_vars, m.body)

/-- A `Property` with its generated object identifier erased. -/
def Property.erase (p : Property) :
    Str × Str × List (Str × Str) × Str × Option (Str × Str) :=
  (p.name, p.type_str, p.local_vars, p.body, p.attr)

/-- The three-pass escape written as a single function of the text
(identical to the non-empty branch of `escape_xhtml`). -/
def escChain (s : Str) : Str :=
  replAll '>' "&gt;".data (replAll '<' "&lt;".data (replAll '&' "&amp;".data s))

/-! ## Concrete inputs used by the claims -/

/-- The Logger example source text of the spec (section 8). -/
def loggerSrc : Str :=
  "FUNCTION_BLOCK Logger\nVAR CONSTANT\n  cArrSize : INT := 100;\nEND_VAR\nVAR\n  count : INT := 0;\nEND_VAR\nMETHOD PUBLIC Reset\nBEGIN\n  count := 0;\nEND_METHOD\nEND_FUNCTION_BLOCK\n".data

/-- A source text whose property declaration precedes its method
declaration. -/
def propFirstSrc : Str :=
  "FUNCTION_BLOCK F\nPROPERTY PUBLIC P : INT\nPROPERTY GET\nBEGIN\n  x := 1;\nEND_PROPERTY\nMETHOD PUBLIC M\nBEGIN\n  y := 2;\nEND_METHOD\nEND_FUNCTION_BLOCK\n".data

/-- A function block whose method declares `x` only in `VAR_INPUT`. -/
def inputOnlySrc : Str :=
  "FUNCTION_BLOCK F\nMETHOD PUBLIC M\nVAR_INPUT\n  x : INT;\nEND_VAR\nBEGIN\n  y := x;\nEND_METHOD\nEND_FUNCTION_BLOCK\n".data

/-- A function block with a member `VAR` block but no method marker. -/
def noMethodSrc : Str :=
  "FUNCTION_BLOCK F\nVAR\n  x : INT;\nEND_VAR\nEND_FUNCTION_BLOCK\n".data

/-! ## General lemmas -/

theorem buildMethods_map_erase (L : List (Str × Str)) (c : Nat) :
    (buildMethods L c).1.map Method.erase
      = L.map (fun nb => (nb.1, parse_method nb.2)) := by
  induction L generalizing c with
  | nil => rfl
  | cons hd tl ih =>
    obtain ⟨n, blk⟩ := hd
    simp [buildMethods, Method.erase, ih]

theorem buildMethods_names (L : List (Str × Str)) (c : Nat) :
    (buildMethods L c).1.map Method.name = L.map Prod.fst := by
  induction L generalizing c with
  | nil => rfl
  | cons hd tl ih =>
    obtain ⟨n, blk⟩ := hd
    simp [buildMethods, ih]

theorem buildMethods_ids (L : List (Str × Str)) (c : Nat) :
    (buildMethods L c).1.map Method.object_id = List.range' c L.length := by
  induction L generalizing c with
  | nil => rfl
  | cons hd tl ih =>
    obtain ⟨n, blk⟩ := hd
    simp [buildMethods, uuidNext, ih, List.range'_succ]

theorem buildMethods_counter (L : List (Str × Str)) (c : Nat) :
    (buildMethods L c).2 = c + L.length := by
  induction L generalizing c with
  | nil => rfl
  | cons hd tl ih =>
    obtain ⟨n, blk⟩ := hd
    simp [buildMethods, uuidNext, ih]
    omega

theorem buildProps_map_erase (L : List (Str × Str × Str)) (c : Nat) :
    (buildProps L c).1.map Property.erase
      = L.map (fun nb =>
          (nb.1, nb.2.1, (parse_property nb.2.2).2.1, (parse_property nb.2.2).2.2,
            (parse_property nb.2.2).1)) := by
  induction L generalizing c with
  | nil => rfl
  | cons hd tl ih =>
    obtain ⟨n, ty, blk⟩ := hd
    simp [buildProps, Property.erase, ih]

theorem buildProps_names (L : List (Str × Str × Str)) (c : Nat) :
    (buildProps L c).1.map Property.name = L.map Prod.fst := by
  induction L generalizing c with
  | nil => rfl
  | cons hd tl ih =>
    obtain ⟨n, ty, blk⟩ := hd
    simp [buildProps, ih]

theorem buildProps_ids (L : List (Str × Str × Str)) (c : Nat) :
    (buildProps L c).1.map Property.object_id = List.range' c L.length := by
  induction L generalizing c with
  | nil => rfl
  | cons hd tl ih =>
    obtain ⟨n, ty, blk⟩ := hd
    simp [buildProps, uuidNext, ih, List.range'_succ]

theorem applyName_constants (st : STConverter) (text : Str) :
    (applyName st text).constants = st.constants := by
  unfold applyName; cases searchFBName text <;> rfl

theorem applyName_vars (st : STConverter) (text : Str) :
    (applyName st text).vars = st.vars := by
  unfold applyName; cases searchFBName text <;> rfl

theorem applyName_methods (st : STConverter) (text : Str) :
    (applyName st text).methods = st.methods := by
  unfold applyName; cases searchFBName text <;> rfl

theorem applyName_properties (st : STConverter) (text : Str) :
    (applyName st text).properties = st.properties := by
  unfold applyName; cases searchFBName text <;> rfl

theorem applyConsts_fb_name (st : STConverter) (text : Str) :
    (applyConsts st text).fb_name = st.fb_name := by
  unfold applyConsts; cases searchConstBlock text <;> rfl

theorem applyConsts_vars (st : STConverter) (text : Str) :
    (applyConsts st text).vars = st.vars := by
  unfold applyConsts; cases searchConstBlock text <;> rfl

theorem applyConsts_methods (st : STConverter) (text : Str) :
    (applyConsts st text).methods = st.methods := by
  unfold applyConsts; cases searchConstBlock text <;> rfl

theorem applyConsts_properties (st : STConverter) (text : Str) :
    (applyConsts st text).properties = st.properties := by
  unfold applyConsts; cases searchConstBlock text <;> rfl

theorem applyVars_fb_name (st : STConverter) (text : Str) :
    (applyVars st text).fb_name = st.fb_name := by
  cases hs : searchFBSection text with
  | none => simp [applyVars, hs]
  | some sec => cases hv : searchVarNl sec <;> simp [applyVars, hs, hv]

theorem applyVars_constants (st : STConverter) (text : Str) :
    (applyVars st text).constants = st.constants := by
  cases hs : searchFBSection text with
  | none => simp [applyVars, hs]
  | some sec => cases hv : searchVarNl sec <;> simp [applyVars, hs, hv]

theorem applyVars_methods (st : STConverter) (text : Str) :
    (applyVars st text).methods = st.methods := by
  cases hs : searchFBSection text with
  | none => simp [applyVars, hs]
  | some sec => cases hv : searchVarNl sec <;> simp [applyVars, hs, hv]

theorem applyVars_properties (st : STConverter) (text : Str) :
    (applyVars st text).properties = st.properties := by
  cases hs : searchFBSection text with
  | none => simp [applyVars, hs]
  | some sec => cases hv : searchVarNl sec <;> simp [applyVars, hs, hv]

theorem parse_st_fb_name (st : STConverter) (text : Str) (c : Nat) :
    (parse_st st text c).1.fb_name = (applyName st text).fb_name := by
  simp [parse_st, applyVars_fb_name, applyConsts_fb_name]

theorem parse_st_constants (st : STConverter) (text : Str) (c : Nat) :
    (parse_st st text c).1.constants = (applyConsts (applyName st text) text).constants := by
  simp [parse_st, applyVars_constants]

theorem parse_st_vars (st : STConverter) (text : Str) (c : Nat) :
    (parse_st st text c).1.vars
      = (applyVars (applyConsts (applyName st text) text) text).vars := by
  simp [parse_st]

theorem parse_st_methods (st : STConverter) (text : Str) (c : Nat) :
    (parse_st st text c).1.methods
      = st.methods ++ (buildMethods (methodFind text) c).1 := by
  simp [parse_st, applyVars_methods, applyConsts_methods, applyName_methods]

theorem parse_st_properties (st : STConverter) (text : Str) (c : Nat) :
    (parse_st st text c).1.properties
      = st.properties
          ++ (buildProps (propFind text) (buildMethods (methodFind text) c).2).1 := by
  simp [parse_st, applyVars_properties, applyConsts_properties, applyName_properties]

theorem parse_st_counter (st : STConverter) (text : Str) (c : Nat) :
    (parse_st st text c).2
      = (buildProps (propFind text) (buildMethods (methodFind text) c).2).2 := by
  simp [parse_st]

theorem searchFBSection_eq_none (text : Str) (h : mpOccs text = []) :
    searchFBSection text = none := by
  unfold searchFBSection
  rw [List.findSome?_eq_none_iff]
  intro i _
  unfold fbSectionAt
  rw [h]
  simp

theorem parse_property_attr_none (blk : Str) (h : searchAttr blk = none) :
    (parse_property blk).1 = none := by
  unfold parse_property
  rw [h]
  cases searchGetSection blk <;> rfl

theorem parse_method_body_default (blk : Str)
    (h1 : searchSandwich "BEGIN".data "END_METHOD".data blk = none)
    (h2 : searchLazyEnd "END_METHOD".data (pySubMethodVars blk) = none) :
    (parse_method blk).2.2.2 = [] := by
  unfold parse_method
  rw [h1, h2]

theorem escape_xhtml_eq_escChain (s : Str) : escape_xhtml s = escChain s := by
  cases s <;> rfl

theorem replAll_append (c : Char) (r : Str) (a b : Str) :
    replAll c r (a ++ b) = replAll c r a ++ replAll c r b := by
  induction a with
  | nil => rfl
  | cons x t ih => simp [replAll, ih]

theorem escChain_cons (x : Char) (t : Str) :
    escChain (x :: t) = specEscapeChar x ++ escChain t := by
  have hamp : "&amp;".data = ['&', 'a', 'm', 'p', ';'] := rfl
  by_cases h1 : x = '&'
  · subst h1
    simp only [escChain, replAll, if_pos rfl, replAll_append]
    rfl
  · by_cases h2 : x = '<'
    · subst h2
      simp only [escChain, replAll, if_neg h1, if_pos rfl, replAll_append,
        List.singleton_append, List.nil_append]
      simp [specEscapeChar, replAll]
    · by_cases h3 : x = '>'
      · subst h3
        simp only [escChain, replAll, if_neg h1, if_neg h2, replAll_append,
          List.singleton_append, List.nil_append]
        simp [specEscapeChar, replAll, h1, h2]
      · simp only [escChain, replAll, if_neg h1, replAll_append]
        simp [specEscapeChar, replAll, h1, h2, h3]

theorem escChain_eq_flatten (s : Str) :
    escChain s = (s.map specEscapeChar).flatten := by
  induction s with
  | nil => rfl
  | cons x t ih => rw [escChain_cons, ih]; simp

theorem xmlUnescape_cons (c : Char) (t : Str) (h : ¬ c = '&') :
    xmlUnescape (c :: t) = c :: xmlUnescape t := by
  rw [xmlUnescape]
  simp [h]

theorem xmlUnescape_amp (t : Str) :
    xmlUnescape ('&' :: 'a' :: 'm' :: 'p' :: ';' :: t) = '&' :: xmlUnescape t := by
  rw [xmlUnescape]
  simp

theorem xmlUnescape_lt (t : Str) :
    xmlUnescape ('&' :: 'l' :: 't' :: ';' :: t) = '<' :: xmlUnescape t := by
  rw [xmlUnescape]
  simp [show ('l' : Char) ≠ 'a' by decide]

theorem xmlUnescape_gt (t : Str) :
    xmlUnescape ('&' :: 'g' :: 't' :: ';' :: t) = '>' :: xmlUnescape t := by
  rw [xmlUnescape]
  simp [show ('g' : Char) ≠ 'a' by decide, show ('g' : Char) ≠ 'l' by decide,
    show ('g' : Char) ≠ 'q' by decide]

theorem xmlUnescape_flatten (s : Str) :
    xmlUnescape ((s.map specEscapeChar).flatten) = s := by
  induction s with
  | nil => simp [xmlUnescape]
  | cons x t ih =>
    by_cases h1 : x = '&'
    · subst h1
      simp only [List.map_cons, List.flatten_cons,
        show specEscapeChar '&' = ['&', 'a', 'm', 'p', ';'] from rfl,
        List.cons_append, List.nil_append]
      rw [xmlUnescape_amp, ih]
    · by_cases h2 : x = '<'
      · subst h2
        simp only [List.map_cons, List.flatten_cons,
          show specEscapeChar '<' = ['&', 'l', 't', ';'] from rfl,
          List.cons_append, List.nil_append]
        rw [xmlUnescape_lt, ih]
      · by_cases h3 : x = '>'
        · subst h3
          simp only [List.map_cons, List.flatten_cons,
            show specEscapeChar '>' = ['&', 'g', 't', ';'] from rfl,
            List.cons_append, List.nil_append]
          rw [xmlUnescape_gt, ih]
        · simp only [List.map_cons, List.flatten_cons, specEscapeChar,
            if_neg h1, if_neg h2, if_neg h3, List.singleton_append]
          rw [xmlUnescape_cons x _ h1, ih]

/-! ## Claim theorems -/

set_option maxRecDepth 8000 in
/-- Claim C1 (code-bug evidence): on the spec's Logger example the
extractor yields `fb_name = "Logger"`, exactly one constant `cArrSize`,
exactly one variable `count`, and exactly one method `Reset` with body
`count := 0;`, and the serialized document embeds exactly one method
data-block named `Reset` and lists it exactly once in the structural
summary — but the recorded initial values are `"100;"` and `"0;"`, not
the claimed `"100"` and `"0"`: the declaration-line regex of
`_parse_var_block` keeps the trailing semicolon (unlike
`_parse_param_section`, which strips it). -/
theorem c1_logger_eval :
    (parse_st STConverter.init loggerSrc 0).1.fb_name = "Logger".data
  ∧ ((parse_st STConverter.init loggerSrc 0).1.constants.map
        (fun p => (p.1, p.2.type_str, p.2.init_val)))
      = [("cArrSize".data, "INT".data, some "100;".data)]
  ∧ ((parse_st STConverter.init loggerSrc 0).1.vars.map
        (fun p => (p.1, p.2.type_str, p.2.init_val)))
      = [("count".data, "INT".data, some "0;".data)]
  ∧ ((parse_st STConverter.init loggerSrc 0).1.methods.map
        (fun m => (m.name, m.body)))
      = [("Reset".data, "count := 0;".data)]
  ∧ (parse_st STConverter.init loggerSrc 0).1.properties = []
  ∧ countOcc "<Method name=\"Reset\"".data
        (generate_xml (parse_st STConverter.init loggerSrc 0).1
          (parse_st STConverter.init loggerSrc 0).2).1 = 1
  ∧ countOcc "<Object Name=\"Reset\"".data
        (generate_xml (parse_st STConverter.init loggerSrc 0).1
          (parse_st STConverter.init loggerSrc 0).2).1 = 1
  ∧ "100;".data ≠ "100".data := by
  decide

/-- Claim C2 (code-bug evidence): for `ARRAY [1..10] OF REAL` the
serializer emits the raw dimension text inside the `dimension` element
(`<dimension 1..10 />`), never `lower`/`upper` bound attributes, even
though the bounds are parseable (the array pattern itself extracts
`1..10` and `REAL`); the `lower`/`upper` form appears only as the
hard-coded `lower="1" upper="100"` fallback when the pattern fails. -/
theorem c2_array_dimension_raw :
    type_to_xml_element "ARRAY [1..10] OF REAL".data
      = "<array><dimension 1..10 /><baseType><REAL /></baseType></array>".data
  ∧ containsSub "lower=".data (type_to_xml_element "ARRAY [1..10] OF REAL".data) = false
  ∧ arrayTypeMatch "ARRAY [1..10] OF REAL".data = some ("1..10".data, "REAL".data) := by
  decide

set_option maxRecDepth 4000 in
/-- Claim C3 (code-bug evidence): a declaration appearing only in the
`VAR_INPUT` block of a method is recorded in the local-variable list as
well: the local-`VAR` search of `_parse_method` (source line 205) matches
the `VAR` prefix of `VAR_INPUT`, contradicting the comment
"Extract local VAR section (not VAR_INPUT/OUTPUT)" on line 204. -/
theorem c3_input_leaks_to_locals :
    (parse_st STConverter.init inputOnlySrc 0).1.methods.map Method.name = ["M".data]
  ∧ (parse_st STConverter.init inputOnlySrc 0).1.methods.map Method.input_vars
      = [[("x".data, "INT".data)]]
  ∧ (parse_st STConverter.init inputOnlySrc 0).1.methods.map Method.output_vars = [[]]
  ∧ (parse_st STConverter.init inputOnlySrc 0).1.methods.map Method.local_vars
      = [[("x".data, "INT".data)]]
  ∧ (parse_st STConverter.init inputOnlySrc 0).1.methods.map Method.body
      = ["y := x;".data] := by
  decide

set_option maxRecDepth 4000 in
/-- Claim C4 (counterexample): in `propFirstSrc` the property `P` appears
in the source before the method `M` (their marker offsets are 17 and 83),
yet the structural summary lists `M` first — the generated order is
methods-then-properties, not order of first appearance in the source. -/
theorem c4_counterexample :
    ((projStruct (parse_st STConverter.init propFirstSrc 0).1).map Prod.fst
        = ["M".data, "P".data])
  ∧ firstOccFrom "PROPERTY PUBLIC".data propFirstSrc 0 = some 17
  ∧ firstOccFrom "METHOD PUBLIC".data propFirstSrc 0 = some 83
  ∧ (["M".data, "P".data] : List Str) ≠ ["P".data, "M".data] := by
  decide

/-- Claim C4 (amended): for every source text, the structural summary (and
the primary declaration order it mirrors) lists all methods first, in
method-match source order, and then all properties, in property-match
source order — not the interleaved order of first appearance. -/
theorem c4_amended (text : Str) (c : Nat) :
    ((projStruct (parse_st STConverter.init text c).1).map Prod.fst
        = (parse_st STConverter.init text c).1.methods.map Method.name
          ++ (parse_st STConverter.init text c).1.properties.map Property.name)
  ∧ (parse_st STConverter.init text c).1.methods.map Method.name
      = (methodFind text).map Prod.fst
  ∧ (parse_st STConverter.init text c).1.properties.map Property.name
      = (propFind text).map Prod.fst := by
  refine ⟨?_, ?_, ?_⟩
  · simp only [projStruct, List.map_append, List.map_map]
    rfl
  · rw [parse_st_methods]
    simp [STConverter.init, buildMethods_names]
  · rw [parse_st_properties]
    simp [STConverter.init, buildProps_names]

/-- Claim C5 (confirmed): in every generated document, the identifier list
of the structural summary equals the identifier list of the primary
method/property declarations (same entities, same order), and these
identifiers are pairwise distinct — so each summary identifier matches
exactly one primary declaration and conversely. -/
theorem c5_summary_ids (text : Str) (c : Nat) :
    ((projStruct (parse_st STConverter.init text c).1).map Prod.snd
        = (parse_st STConverter.init text c).1.methods.map Method.object_id
          ++ (parse_st STConverter.init text c).1.properties.map Property.object_id)
  ∧ ((projStruct (parse_st STConverter.init text c).1).map Prod.snd).Nodup := by
  have hm : (parse_st STConverter.init text c).1.methods.map Method.object_id
      = List.range' c (methodFind text).length := by
    rw [parse_st_methods]
    simp [STConverter.init, buildMethods_ids]
  have hp : (parse_st STConverter.init text c).1.properties.map Property.object_id
      = List.range' (c + (methodFind text).length) (propFind text).length := by
    rw [parse_st_properties]
    simp [STConverter.init, buildProps_ids, buildMethods_counter]
  have hsum : (projStruct (parse_st STConverter.init text c).1).map Prod.snd
      = (parse_st STConverter.init text c).1.methods.map Method.object_id
        ++ (parse_st STConverter.init text c).1.properties.map Property.object_id := by
    simp only [projStruct, List.map_append, List.map_map]
    rfl
  refine ⟨hsum, ?_⟩
  rw [hsum, hm, hp]
  rw [show c + (methodFind text).length = c + 1 * (methodFind text).length by ring]
  rw [List.range'_append]
  exact List.nodup_range' _ _

/-- Claim C6 (confirmed): `escape_xhtml` is exactly the per-character map
replacing `&` (first), `<` and `>` and nothing else, and standard XML
entity un-escaping of the escaped text returns the original body text
unchanged, for every string. -/
theorem c6_escape_roundtrip (s : Str) :
    escape_xhtml s = (s.map specEscapeChar).flatten
  ∧ xmlUnescape (escape_xhtml s) = s := by
  have h := (escape_xhtml_eq_escChain s).trans (escChain_eq_flatten s)
  exact ⟨h, by rw [h]; exact xmlUnescape_flatten s⟩

/-- Claim C7 (confirmed): extraction is total by construction (every
scanner and parser of this embedding is a total function — the source's
`parse_st` performs no fallible operation), and every missing optional
element degrades to its default: the fallback name `'FB'`, the empty
constant mapping, the empty variable mapping, an absent property
attribute, and an empty method body. -/
theorem c7_degradation (text : Str) (c : Nat) :
    (searchFBName text = none →
      (parse_st STConverter.init text c).1.fb_name = "FB".data)
  ∧ (searchConstBlock text = none →
      (parse_st STConverter.init text c).1.constants = [])
  ∧ ((searchFBSection text).bind searchVarNl = none →
      (parse_st STConverter.init text c).1.vars = [])
  ∧ (∀ blk : Str, searchAttr blk = none → (parse_property blk).1 = none)
  ∧ (∀ blk : Str, searchSandwich "BEGIN".data "END_METHOD".data blk = none →
      searchLazyEnd "END_METHOD".data (pySubMethodVars blk) = none →
      (parse_method blk).2.2.2 = []) := by
  refine ⟨?_, ?_, ?_, fun blk h => parse_property_attr_none blk h,
    fun blk h1 h2 => parse_method_body_default blk h1 h2⟩
  · intro h
    rw [parse_st_fb_name]
    unfold applyName
    rw [h]
    rfl
  · intro h
    rw [parse_st_constants]
    unfold applyConsts
    rw [h, applyName_constants]
    rfl
  · intro h
    rw [parse_st_vars]
    unfold applyVars
    cases hs : searchFBSection text with
    | none => simp [applyConsts_vars, applyName_vars, STConverter.init]
    | some sec =>
      rw [hs] at h
      simp only [Option.some_bind] at h
      simp [h, applyConsts_vars, applyName_vars, STConverter.init]

/-- Witness for C7 at the empty input text. -/
theorem c7_witness :
    (searchFBName [] = none
        ∧ (parse_st STConverter.init [] 0).1.fb_name = "FB".data)
  ∧ (searchConstBlock [] = none
        ∧ (parse_st STConverter.init [] 0).1.constants = [])
  ∧ ((searchFBSection []).bind searchVarNl = none
        ∧ (parse_st STConverter.init [] 0).1.vars = [])
  ∧ (searchAttr [] = none ∧ (parse_property []).1 = none)
  ∧ (parse_method []).2.2.2 = [] :=
  ⟨⟨by decide, (c7_degradation [] 0).1 (by decide)⟩,
    ⟨by decide, (c7_degradation [] 0).2.1 (by decide)⟩,
    ⟨by decide, (c7_degradation [] 0).2.2.1 (by decide)⟩,
    ⟨by decide, (c7_degradation [] 0).2.2.2.1 [] (by decide)⟩,
    (c7_degradation [] 0).2.2.2.2 [] (by decide) (by decide)⟩

/-- Claim C8 (confirmed): running extraction twice on the identical text —
with arbitrary, possibly different identifier supplies — produces models
identical in every field (name, constants, variables, methods and
properties with their parameters, bodies and attributes) except for the
generated object identifiers. -/
theorem c8_determinism (text : Str) (c1 c2 : Nat) :
    (parse_st STConverter.init text c1).1.fb_name
        = (parse_st STConverter.init text c2).1.fb_name
  ∧ (parse_st STConverter.init text c1).1.constants
        = (parse_st STConverter.init text c2).1.constants
  ∧ (parse_st STConverter.init text c1).1.vars
        = (parse_st STConverter.init text c2).1.vars
  ∧ (parse_st STConverter.init text c1).1.methods.map Method.erase
        = (parse_st STConverter.init text c2).1.methods.map Method.erase
  ∧ (parse_st STConverter.init text c1).1.properties.map Property.erase
        = (parse_st STConverter.init text c2).1.properties.map Property.erase := by
  refine ⟨?_, ?_, ?_, ?_, ?_⟩
  · rw [parse_st_fb_name, parse_st_fb_name]
  · rw [parse_st_constants, parse_st_constants]
  · rw [parse_st_vars, parse_st_vars]
  · rw [parse_st_methods, parse_st_methods]
    simp [buildMethods_map_erase]
  · rw [parse_st_properties, parse_st_properties]
    simp [buildProps_map_erase]

set_option maxRecDepth 8000 in
/-- Claim C9 (counterexample): calling the conversion entry point a second
time on the same converter object does not start from empty lists — after
converting `loggerSrc` twice on one converter the model holds the method
`Reset` twice, while a fresh converter holds it once, so the second run's
model depends on the first input as well. -/
theorem c9_counterexample :
    ((convert (convert STConverter.init loggerSrc 0).1 loggerSrc
        (convert STConverter.init loggerSrc 0).2.2).1.methods.map Method.name
      = ["Reset".data, "Reset".data])
  ∧ ((convert STConverter.init loggerSrc 0).1.methods.map Method.name
      = ["Reset".data]) := by
  decide

/-- Claim C9 (amended): a conversion starting from a fresh converter starts
from the empty `__init__` state, but a second `parse_st` on the same
converter object appends: its method and property lists are the first
run's lists extended by exactly the methods/properties a fresh parse of
the second text (at the same identifier counter) would produce. -/
theorem c9_amended (t1 t2 : Str) (c : Nat) :
    ((parse_st (parse_st STConverter.init t1 c).1 t2
          (parse_st STConverter.init t1 c).2).1.methods
        = (parse_st STConverter.init t1 c).1.methods
          ++ (parse_st STConverter.init t2 (parse_st STConverter.init t1 c).2).1.methods)
  ∧ ((parse_st (parse_st STConverter.init t1 c).1 t2
          (parse_st STConverter.init t1 c).2).1.properties
        = (parse_st STConverter.init t1 c).1.properties
          ++ (parse_st STConverter.init t2
                (parse_st STConverter.init t1 c).2).1.properties) := by
  constructor
  · simp only [parse_st_methods]
    simp [STConverter.init]
  · simp only [parse_st_properties]
    simp [STConverter.init]

/-- Claim C10 (confirmed): when the text contains no `METHOD\s+PUBLIC`
match, the search for the region between the function-block keyword and
the first method marker fails, so the member-variable mapping stays
empty — even when a plain `VAR…END_VAR` block is present after the
function-block declaration. -/
theorem c10_no_method_no_vars (text : Str) (c : Nat) (h : mpOccs text = []) :
    (parse_st STConverter.init text c).1.vars = [] := by
  rw [parse_st_vars]
  unfold applyVars
  rw [searchFBSection_eq_none text h]
  simp [applyConsts_vars, applyName_vars, STConverter.init]

/-- Witness for C10: `noMethodSrc` has a `VAR…END_VAR` block (the inner
block search would find it) but no `METHOD PUBLIC` marker, and its parse
leaves the member-variable mapping empty. -/
theorem c10_witness :
    mpOccs noMethodSrc = []
  ∧ searchVarNl noMethodSrc = some "  x : INT;".data
  ∧ (parse_st STConverter.init noMethodSrc 0).1.vars = [] :=
  ⟨by decide, by decide, c10_no_method_no_vars noMethodSrc 0 (by decide)⟩

/-! ## Scanner sanity checks

Each of the following equalities reproduces the behaviour of the
corresponding CPython `re` call on the same input (groups and
backtracking included), fixing the intended semantics of the scanners. -/

example : searchFBName "FUNCTION_BLOCK Logger\nVAR".data = some "Logger".data := by decide

example : searchConstBlock "VAR CONSTANT\n  cArrSize : INT := 100;\nEND_VAR".data
    = some "  cArrSize : INT := 100;".data := by decide

example : searchConstBlock "VAR CONSTANT\n\nEND_VAR".data = some [] := by decide

example : searchConstBlock "VAR CONSTANT\nEND_VAR".data = none := by decide

example : searchConstBlock "VAR CONSTANT  \n \n  a : INT;\nEND_VAR".data
    = some "  a : INT;".data := by decide

example : searchConstBlock "VAR CONSTANT\n\nEND_VAR x\nEND_VAR".data
    = some "END_VAR x".data := by decide

example : searchVarNl "\nVAR CONSTANT\n  c : INT := 1;\nEND_VAR\nVAR\n  n : INT := 0;\nEND_VAR\n".data
    = some "VAR\n  n : INT := 0;".data := by decide

example : searchFBSection "FUNCTION_BLOCK xMETHOD PUBLIC\nMore".data = some [] := by decide

example : searchFBSection "FUNCTION_BLOCK METHOD PUBLIC".data = none := by decide

example : searchSandwich "VAR".data "END_VAR".data
      "\nVAR_INPUT\n  x : INT;\nEND_VAR\nBEGIN\n  y := x;\nEND_METHOD\n".data
    = some "_INPUT\n  x : INT;".data := by decide

example : searchSandwich "VAR_INPUT".data "END_VAR".data "\nVAR_INPUT\n  x : INT;\nEND_VAR\n".data
    = some "x : INT;".data := by decide

example : searchSandwich "VAR".data "END_VAR".data "VAR   END_VAR".data = some [] := by decide

example : searchSandwich "BEGIN".data "END_METHOD".data "\nBEGIN\n  count := 0;\nEND_METHOD\n".data
    = some "count := 0;".data := by decide

example : declLineMatch "cArrSize : INT := 100;".data
    = some ("cArrSize".data, "INT ".data, some "100;".data) := by decide

example : declLineMatch "arr : ARRAY [1..10] OF REAL;".data
    = some ("arr".data, "ARRAY [1..10] OF REAL;".data, none) := by decide

example : declLineMatch "x :".data = none := by decide

example : declLineMatch "a : b:=".data = some ("a".data, "b:=".data, none) := by decide

example : paramLineMatch "x : INT".data = some ("x".data, "INT".data) := by decide

example : methodFind "METHOD PUBLIC A\nBEGIN\na := 1;\nEND_METHOD\nMETHOD PUBLIC B\nBEGIN\nb := 2;\nEND_METHOD\nEND_FUNCTION_BLOCK".data
    = [("A".data, "\nBEGIN\na := 1;\nEND_METHOD\n".data),
       ("B".data, "\nBEGIN\nb := 2;\nEND_METHOD\n".data)] := by decide

example : methodFind "METHOD PUBLIC xEND_FUNCTION_BLOCK".data = [("x".data, [])] := by decide

example : propFind "PROPERTY PUBLIC P : INT\nPROPERTY GET\nBEGIN\n  x := 1;\nEND_PROPERTY\n".data
    = [("P".data, "INT".data, "\nPROPERTY GET\nBEGIN\n  x := 1;\n".data)] := by decide

example : searchGetSection "\nPROPERTY GET\nBEGIN\n  x := 1;\n".data
    = some "BEGIN\n  x := 1;".data := by decide

example : searchPropBegin "BEGIN\nabc\n\n".data = some "abc\n".data := by decide

example : searchAttr "x\n\x7battribute 'myAttr' := 'val'\x7d\ny".data
    = some ("myAttr".data, "val".data) := by decide

example : arrayTypeMatch "ARRAY [1..10] OF REAL".data = some ("1..10".data, "REAL".data) := by decide

example : pySubMethodVars "\nVAR_INPUT\n  x : INT;\nEND_VAR\nBEGIN\n  y := x;\nEND_METHOD\n".data
    = "\nBEGIN\n  y := x;\nEND_METHOD\n".data := by decide

example : pySubMethodVars "VAR_INPUT a END_VAR  b VAR c END_VAR d".data = "b d".data := by decide

example : pySubMethodVars "abc VAR xx".data = "abc VAR xx".data := by decide

example : searchLazyEnd "END_METHOD".data "\nBEGIN\n  y := x;\nEND_METHOD\n".data
    = some "\nBEGIN\n  y := x;".data := by decide

example : escape_xhtml "a<&>b".data = "a&lt;&amp;&gt;b".data := by decide

example : escape_xhtml "&lt;".data = "&amp;lt;".data := by decide

example : xmlUnescape "&amp;lt;".data = "&lt;".data := by
  rw [show ("&amp;lt;".data : Str)
      = '&' :: 'a' :: 'm' :: 'p' :: ';' :: 'l' :: 't' :: ';' :: [] from rfl]
  rw [xmlUnescape_amp, xmlUnescape_cons 'l' _ (by decide),
    xmlUnescape_cons 't' _ (by decide), xmlUnescape_cons ';' _ (by decide)]
  simp [xmlUnescape]

end STConv
